import Mathlib

deriving instance DecidableEq for Except

/-!
Verification development for the scipion-pyworkflow scheduler core.

Shallow embedding of:
  * src/pyworkflow/utils/process.py   (runJob, runCommand, buildRunCommand)
  * src/pyworkflow/apps/pw_schedule_run.py  (RunScheduler.main and its helpers)

External collaborators (Pointer observations, Project.getProtocol, the shell
call, the Python % template operator) are modelled from the spec where noted.
-/

namespace PW

/-! ## String scanning helpers (Python string semantics) -/

/-- Boolean list-prefix test on character lists. -/
def isPrefixCh : List Char → List Char → Bool
  | [], _ => true
  | _ :: _, [] => false
  | p :: ps, c :: cs => p == c && isPrefixCh ps cs

/-- Python str.replace: a single left-to-right scan replacing each
non-overlapping occurrence of the (nonempty) pattern; replaced text is not
rescanned.  The fuel argument is the length of the scanned list; each step
consumes at least one character, so the fuel never runs out on the inputs
used below. -/
def pyReplace (pat repl : List Char) : Nat → List Char → List Char
  | 0, cs => cs
  | _ + 1, [] => []
  | fuel + 1, c :: cs =>
    if isPrefixCh pat (c :: cs) then
      repl ++ pyReplace pat repl fuel (List.drop pat.length (c :: cs))
    else
      c :: pyReplace pat repl fuel cs

/-- Python str.replace lifted to String. -/
def pyStrReplace (s pat repl : String) : String :=
  String.mk (pyReplace pat.data repl.data s.data.length s.data)

/-- Python str.startswith, via the character list. -/
def pyStartsWith (s pre : String) : Bool :=
  isPrefixCh pre.data s.data

/-- Drop the first n characters of a string. -/
def strDrop (s : String) (n : Nat) : String :=
  String.mk (s.data.drop n)

def jobNodesKey : List Char := "%(JOB_NODES)s".data

def commandKey : List Char := "%(COMMAND)s".data

/-- Modelled from the spec: the Python named-substitution operator (template %
dict) as used on the host command template, for the two keys the code passes
(JOB_NODES and COMMAND).  Single left-to-right scan of the template;
substituted values are inserted verbatim and never rescanned. -/
def pyFormatScan (nodes cmd : List Char) : Nat → List Char → List Char
  | 0, cs => cs
  | _ + 1, [] => []
  | fuel + 1, c :: cs =>
    if isPrefixCh jobNodesKey (c :: cs) then
      nodes ++ pyFormatScan nodes cmd fuel (List.drop jobNodesKey.length (c :: cs))
    else if isPrefixCh commandKey (c :: cs) then
      cmd ++ pyFormatScan nodes cmd fuel (List.drop commandKey.length (c :: cs))
    else
      c :: pyFormatScan nodes cmd fuel cs

/-- Render the host command template with the JOB_NODES and COMMAND values. -/
def renderTemplate (template nodes cmd : String) : String :=
  String.mk (pyFormatScan nodes.data cmd.data template.data.length template.data)

/-! ## Embedding of src/pyworkflow/utils/process.py -/

/-- Host Configuration: mpiCommand is the command template
(hostConfig.mpiCommand.get() in the source). -/
structure HostConfig where
  mpiCommand : String
deriving Repr, DecidableEq

/-- The " &" suffix appended when background execution is requested
(lines 90-91 of process.py). -/
def bgSuffix (runInBackground : Bool) (command : String) : String :=
  if runInBackground then command ++ " &" else command

/-- buildRunCommand (process.py lines 74-93).  The log argument is accepted and
ignored, as in the source.  Failures (the Python raise) are the error case. -/
def buildRunCommand (log : Option String) (programname params : String)
    (numberOfMpi numberOfThreads : Int) (runInBackground : Bool)
    (hostConfig : Option HostConfig) : Except String String :=
  if numberOfMpi ≤ 1 then
    .ok (bgSuffix runInBackground (programname ++ " " ++ params))
  else
    let programname1 :=
      if pyStartsWith programname "xmipp" then pyStrReplace programname "xmipp" "xmipp_mpi"
      else programname
    let jobNodes := toString numberOfMpi
    let commandVal := "`which " ++ programname1 ++ "` " ++ params
    match hostConfig with
    | none => .error "buildRunCommand: hostConfig is needed to launch MPI processes."
    | some hc => .ok (bgSuffix runInBackground (renderTemplate hc.mpiCommand jobNodes commandVal))

/-- Reference definition following the spec text (section 4.3): count <= 1
gives name-space-args; count > 1 requires a Host Configuration, rewrites the
program name by a prefix substitution (the leading "xmipp" becomes
"xmipp_mpi"), and renders the host template with the count and the inner
command. -/
def buildRunCommandSpec (log : Option String) (programname params : String)
    (numberOfMpi numberOfThreads : Int) (runInBackground : Bool)
    (hostConfig : Option HostConfig) : Except String String :=
  if numberOfMpi ≤ 1 then
    .ok (bgSuffix runInBackground (programname ++ " " ++ params))
  else
    match hostConfig with
    | none => .error "buildRunCommand: hostConfig is needed to launch MPI processes."
    | some hc =>
      let programname1 :=
        if pyStartsWith programname "xmipp" then "xmipp_mpi" ++ strDrop programname 5
        else programname
      let commandVal := "`which " ++ programname1 ++ "` " ++ params
      .ok (bgSuffix runInBackground (renderTemplate hc.mpiCommand (toString numberOfMpi) commandVal))

/-- The spec reference definition amended to match the source on the single
point where they differ: the rewrite replaces every occurrence of "xmipp" in
the program name (Python str.replace), not only the leading prefix. -/
def buildRunCommandAmended (log : Option String) (programname params : String)
    (numberOfMpi numberOfThreads : Int) (runInBackground : Bool)
    (hostConfig : Option HostConfig) : Except String String :=
  if numberOfMpi ≤ 1 then
    .ok (bgSuffix runInBackground (programname ++ " " ++ params))
  else
    match hostConfig with
    | none => .error "buildRunCommand: hostConfig is needed to launch MPI processes."
    | some hc =>
      let programname1 :=
        if pyStartsWith programname "xmipp" then pyStrReplace programname "xmipp" "xmipp_mpi"
        else programname
      let commandVal := "`which " ++ programname1 ++ "` " ++ params
      .ok (bgSuffix runInBackground (renderTemplate hc.mpiCommand (toString numberOfMpi) commandVal))

/-- Modelled from the spec: the outcome of the synchronous shell call
(subprocess.call) on a given command — either an exit code, or an OS-level
failure to start the shell (OSError). -/
inductive CallOutcome
  | exit (code : Int)
  | osError (err : String)
deriving Repr, DecidableEq

/-- The two failures runCommand can raise (process.py lines 66-69), kept as
distinct constructors; message reconstructs the exact Python exception text. -/
inductive RunError
  | processReturned (code : Int) (command : String)
  | executionFailed (err : String) (command : String)
deriving Repr, DecidableEq

/-- The exception message carried by each failure, exactly as formatted by the
source. -/
def RunError.message : RunError → String
  | .processReturned code command =>
      "Process returned with code " ++ toString code ++ ", command: " ++ command
  | .executionFailed err command =>
      "Execution failed " ++ err ++ ", command: " ++ command

/-- runCommand (process.py lines 56-71): classify the shell call outcome.
A non-zero exit code raises processReturned; an OSError raises
executionFailed; exit code 0 is returned. -/
def runCommand (command : String) (outcome : CallOutcome) : Except RunError Int :=
  match outcome with
  | .exit retcode =>
      if retcode != 0 then .error (.processReturned retcode command) else .ok retcode
  | .osError e => .error (.executionFailed e command)

/-! ## Embedding of src/pyworkflow/apps/pw_schedule_run.py -/

/-- The protocol status enumeration (the members used by the scheduler). -/
inductive PStatus
  | created
  | scheduled
  | running
  | finished
  | aborted
  | failed
deriving Repr, DecidableEq

/-- stopStatuses (pw_schedule_run.py line 85). -/
def stopStatuses : List PStatus := [.finished, .aborted, .failed]

/-- An ancestor or prerequisite protocol as seen by the scheduler: identity,
persisted status, and the existence and modification timestamp of its own
run database (used by _updateProtocol). -/
structure Protocol where
  objId : Nat
  status : PStatus
  dbExists : Bool
  lastModified : Nat
  label : String
deriving Repr, DecidableEq

/-- Modelled from the spec: the value a Reference observation can yield —
another Job directly, a Collection (Set) with its streaming flag, or some
other non-Job object; non-Job objects carry the id of the Job that owns
them (getObjParentId). -/
inductive PValue
  | prot (p : Protocol)
  | pset (parentId : Nat) (streamOpen : Bool)
  | other (parentId : Nat)
deriving Repr, DecidableEq

/-- getObjParentId of a pointed value.  The source only calls it on non-Job
values; the value for the prot case is arbitrary and never consulted. -/
def PValue.getObjParentId : PValue → Nat
  | .prot _ => 0
  | .pset pid _ => pid
  | .other pid => pid

/-- isinstance(v, Set) and v.isStreamOpen() (pw_schedule_run.py line 194). -/
def PValue.isStreamOpenSet : PValue → Bool
  | .pset _ so => so
  | _ => false

/-- Modelled from the spec: a Reference (Pointer), reduced to the three
observations the scheduler makes on it: get(), getObjValue() and
hasExtended(). -/
structure Pointer where
  value : PValue
  objValue : PValue
  extended : Bool
deriving Repr, DecidableEq

/-- Modelled from the spec: the project container, with getProtocol lookup by
job identity (returns nothing when no Job matches the id). -/
structure Project where
  protocols : List Protocol
deriving Repr, DecidableEq

def Project.getProtocol (proj : Project) (protId : Nat) : Option Protocol :=
  proj.protocols.find? (fun p => p.objId == protId)

/-- The scheduled protocol as one poll iteration loads it: identity and db
metadata, input references (iterInputAttributes), validation problems
(validate()), streaming capability, and inputProtocolDict().values(). -/
structure SchedProtocol where
  objId : Nat
  dbExists : Bool
  lastModified : Nat
  label : String
  inputAttributes : List (String × Pointer)
  validation : List String
  worksInStreaming : Bool
  inputProtocolDictVals : List Protocol
deriving Repr, DecidableEq

/-- The state one poll iteration reads from the Shared Store: the freshly
loaded scheduled protocol and its project. -/
structure Snapshot where
  protocol : SchedProtocol
  project : Project
deriving Repr, DecidableEq

/-- The fields of a protocol consulted by _updateProtocol. -/
structure ProtMeta where
  objId : Nat
  dbExists : Bool
  lastModified : Nat
deriving Repr, DecidableEq

def Protocol.toMeta (p : Protocol) : ProtMeta :=
  ⟨p.objId, p.dbExists, p.lastModified⟩

def SchedProtocol.toMeta (p : SchedProtocol) : ProtMeta :=
  ⟨p.objId, p.dbExists, p.lastModified⟩

/-- The observable actions of the scheduler: store handle operations, schedule
log lines, protocol refreshes (project._updateProtocol), sleeping, closing
the schedule log and handing off to launchProtocol. -/
inductive Event
  | openStore
  | logMsg (msg : String)
  | refresh (protId : Nat)
  | commitStore
  | closeStore
  | sleep (seconds : Nat)
  | closeLog
  | launch (protId : Nat)
deriving Repr, DecidableEq

/-- The mutable closure state of RunScheduler.main (lines 110-111):
lastCheckedDict and updatedProtocols.  Note the source never writes to
lastCheckedDict; the embedding keeps the field to stay faithful. -/
structure UpdState where
  lastCheckedDict : List (Nat × Nat)
  updatedProtocols : List Nat
deriving Repr, DecidableEq

def lookupTs (dict : List (Nat × Nat)) (key : Nat) : Option Nat :=
  (dict.find? (fun kv => kv.fst == key)).map (fun kv => kv.snd)

/-- The condition of line 126: lastChecked is None or lastModified is newer. -/
def tsNewer (dict : List (Nat × Nat)) (key lastModified : Nat) : Bool :=
  match lookupTs dict key with
  | none => true
  | some t => lastModified > t

/-- _updateProtocol (pw_schedule_run.py lines 113-130): skip when already
updated this iteration; otherwise, when the protocol database exists and its
modification date is newer than the recorded one (never recorded, hence
always unknown), refresh it via the project and memoize its id. -/
def updateProtocol (m : ProtMeta) (st : UpdState) : UpdState × List Event :=
  if st.updatedProtocols.contains m.objId then (st, [])
  else if m.dbExists then
    if tsNewer st.lastCheckedDict m.objId m.lastModified then
      ({ st with updatedProtocols := st.updatedProtocols ++ [m.objId] },
       [Event.refresh m.objId, Event.logMsg ("Updated protocol " ++ toString m.objId)])
    else (st, [])
  else (st, [])

/-- _getProtocolFromPointer (pw_schedule_run.py lines 132-155).  Case A: the
pointer holds a protocol.  Case B: extended pointer, return getObjValue()
(an error when that value is not a protocol, which cannot act as an ancestor
Job downstream).  Case C: the source executes self.getProject() where self
is the RunScheduler instance, and RunScheduler defines no getProject method
(only _parseArgs, _loadProtocol and main), so a plain indirect reference
always raises AttributeError before any lookup — the project is never
consulted in this case. -/
def getProtocolFromPointer (proj : Project) (ptr : Pointer) :
    Except String Protocol :=
  match ptr.value with
  | .prot p => .ok p
  | _ =>
    if ptr.extended then
      match ptr.objValue with
      | .prot p => .ok p
      | _ => .error "AttributeError: extended pointer value is not a Protocol"
    else
      .error "AttributeError: RunScheduler object has no attribute getProject"

/-- The input-reference loop (lines 176-181): resolve every input pointer,
refresh the resolved ancestor, and accumulate whether any ancestor is
aborted or failed.  A resolution failure is the Python AttributeError
propagating out of _getProtocolFromPointer. -/
def checkInputLoop (proj : Project) :
    List (String × Pointer) → UpdState → Bool →
    Except String (UpdState × List Event × Bool)
  | [], st, failed => .ok (st, [], failed)
  | (_, attr) :: rest, st, failed =>
    match getProtocolFromPointer proj attr with
    | .error e => .error e
    | .ok inputProt =>
      let su := updateProtocol inputProt.toMeta st
      let failed1 := failed || inputProt.status == PStatus.aborted
                            || inputProt.status == PStatus.failed
      match checkInputLoop proj rest su.fst failed1 with
      | .error e => .error e
      | .ok (st2, evs2, f2) => .ok (st2, su.snd ++ evs2, f2)

/-- The streaming check (lines 192-199): the first input whose value is a Set
with an open stream, if any (the source breaks at the first hit). -/
def findOpenStream : List (String × Pointer) → Option Pointer
  | [] => none
  | (_, attr) :: rest =>
    if attr.value.isStreamOpenSet then some attr else findOpenStream rest

/-- The inputProtocolDict loop (lines 202-204). -/
def updateList (ps : List Protocol) (st : UpdState) : UpdState × List Event :=
  match ps with
  | [] => (st, [])
  | p :: rest =>
    let su := updateProtocol p.toMeta st
    let su2 := updateList rest su.fst
    (su2.fst, su.snd ++ su2.snd)

/-- The prerequisite loop (lines 209-215): resolve each id via the project; a
missing protocol is skipped; a found protocol is refreshed and, when its
status is not terminal, sets the wait flag and logs a waiting line. -/
def checkPrereqLoop (proj : Project) :
    List Nat → UpdState → UpdState × List Event × Bool
  | [], st => (st, [], false)
  | pid :: rest, st =>
    match proj.getProtocol pid with
    | none => checkPrereqLoop proj rest st
    | some prot =>
      let su := updateProtocol prot.toMeta st
      let waitHere := !(stopStatuses.contains prot.status)
      let waitEvs : List Event :=
        if stopStatuses.contains prot.status then []
        else [Event.logMsg ("   ...waiting for " ++ prot.label)]
      let tail := checkPrereqLoop proj rest su.fst
      (tail.fst, su.snd ++ waitEvs ++ tail.snd.fst, waitHere || tail.snd.snd)

/-- The outcome of one poll iteration. -/
structure IterResult where
  state : UpdState
  events : List Event
  failedInput : Bool
  missing : Bool
  wait : Bool
deriving Repr, DecidableEq

/-- The streaming branch condition (lines 191-199): the protocol does not work
in streaming and some input Set is still stream-open. -/
def streamMissing (snap : Snapshot) : Bool :=
  if !snap.protocol.worksInStreaming then
    match findOpenStream snap.protocol.inputAttributes with
    | some _ => true
    | none => false
  else false

/-- The middle phase of one iteration (lines 183-204): skipped entirely when
some input ancestor failed; otherwise refresh the scheduled protocol, check
validation, then (for non-streaming protocols) look for an open input set,
and when nothing is missing refresh every protocol of inputProtocolDict. -/
def midPhase (snap : Snapshot) (st1 : UpdState) (failedInput : Bool) :
    UpdState × List Event × Bool :=
  if failedInput then (st1, [], false)
  else
    let suP := updateProtocol snap.protocol.toMeta st1
    if snap.protocol.validation.length > 0 then
      (suP.fst,
       suP.snd ++ [Event.logMsg (snap.protocol.label ++ " does not validate")],
       true)
    else
      if streamMissing snap then
        (suP.fst,
         suP.snd ++ [Event.logMsg "Waiting for closing an open input set (protocol does not work in streaming)"],
         true)
      else
        let suD := updateList snap.protocol.inputProtocolDictVals suP.fst
        (suD.fst, suP.snd ++ suD.snd, false)

/-- The body of one poll iteration before the ready test (lines 157-215):
reload from the store, clear the per-iteration memo, run the input checks,
the middle phase and the prerequisite checks. -/
def iterCore (prerequisites : List Nat) (snap : Snapshot) (st0 : UpdState) :
    Except String IterResult :=
  let st := { st0 with updatedProtocols := [] }
  match checkInputLoop snap.project snap.protocol.inputAttributes st false with
  | .error e => .error e
  | .ok (st1, inEvs, failedInput) =>
    let mid := midPhase snap st1 failedInput
    let pr := checkPrereqLoop snap.project prerequisites mid.fst
    .ok { state := pr.fst
          events := [Event.openStore, Event.logMsg "Checking input data..."]
                    ++ inEvs ++ mid.snd.fst
                    ++ [Event.logMsg ("Checking prerequisites... " ++ toString prerequisites)]
                    ++ pr.snd.fst
          failedInput := failedInput
          missing := mid.snd.snd
          wait := pr.snd.snd }

/-- The ready test of line 217: no missing input condition and no waiting
prerequisite. -/
def IterResult.ready (r : IterResult) : Bool :=
  !r.missing && !r.wait

def stillNotReadyMsg (sleepTime : Nat) : String :=
  "Still not ready, sleeping " ++ toString sleepTime ++ " seconds..."

/-- One full poll iteration (lines 157-225): the core checks, then — only when
not ready — commit and close the store, log and sleep (lines 220-225). -/
def pollIteration (prerequisites : List Nat) (sleepTime : Nat) (snap : Snapshot)
    (st0 : UpdState) : Except String IterResult :=
  match iterCore prerequisites snap st0 with
  | .error e => .error e
  | .ok r =>
    if r.ready then .ok r
    else
      .ok { r with events := r.events ++ [Event.commitStore, Event.closeStore,
              Event.logMsg (stillNotReadyMsg sleepTime), Event.sleep sleepTime] }

/-- The polling loop over the successive store snapshots the iterations see.
Breaking out of the loop appends the launch hand-off (lines 227-229); when
the supplied snapshots run out while still waiting the observation is
truncated (the flag stays false). -/
def schedulerRun (prerequisites : List Nat) (sleepTime : Nat) :
    List Snapshot → UpdState → Except String (List Event × Bool)
  | [], _ => .ok ([], false)
  | snap :: rest, st =>
    match pollIteration prerequisites sleepTime snap st with
    | .error e => .error e
    | .ok r =>
      if r.ready then
        .ok (r.events ++ [Event.logMsg "Launching the protocol >>>>", Event.closeLog,
                          Event.launch snap.protocol.objId], true)
      else
        match schedulerRun prerequisites sleepTime rest r.state with
        | .error e => .error e
        | .ok (evs, launched) => .ok (r.events ++ evs, launched)

/-- RunScheduler.main (lines 82-229): the start-up preamble — load the
protocol, record the pid, log the scheduling line, store, commit and close —
followed by the polling loop.  The prerequisites come from
protocol.getPrerequisites() (line 95). -/
def schedulerMain (prerequisites : List Nat) (sleepTime : Nat)
    (snaps : List Snapshot) (protId pid : Nat) :
    Except String (List Event × Bool) :=
  let preEvs := [Event.openStore,
                 Event.logMsg ("Scheduling protocol " ++ toString protId ++ ", pid: "
                   ++ toString pid ++ ", prerequisites: " ++ toString prerequisites),
                 Event.commitStore, Event.closeStore]
  match schedulerRun prerequisites sleepTime snaps ⟨[], []⟩ with
  | .error e => .error e
  | .ok (evs, launched) => .ok (preEvs ++ evs, launched)

/-- The __main__ guard (lines 232-238): exceptions from main are printed —
the error, then the invocation line with sys.argv — and the script then
falls off the end, so the process exit status is 0 either way. -/
structure MainOutcome where
  printedError : Option String
  printedArgv : Option (List String)
  exitCode : Nat
deriving Repr, DecidableEq

def mainWrapper (argv : List String) (result : Except String Unit) : MainOutcome :=
  match result with
  | .ok _ => ⟨none, none, 0⟩
  | .error e => ⟨some e, some argv, 0⟩

/-! ## Observation helpers over run results -/

def runTrace (r : Except String (List Event × Bool)) : List Event :=
  match r with
  | .ok x => x.fst
  | .error _ => []

def runLaunched (r : Except String (List Event × Bool)) : Bool :=
  match r with
  | .ok x => x.snd
  | .error _ => false

def exceptOk {ε α : Type} (r : Except ε α) : Bool :=
  match r with
  | .ok _ => true
  | .error _ => false

def resultOf (r : Except String IterResult) : IterResult :=
  match r with
  | .ok x => x
  | .error _ => ⟨⟨[], []⟩, [], false, false, false⟩

def Event.isLaunch : Event → Bool
  | .launch _ => true
  | _ => false

def Event.isCommitOrClose : Event → Bool
  | .commitStore => true
  | .closeStore => true
  | _ => false

/-- The events of the iteration that launches: everything after the last
openStore of the trace. -/
def afterLastOpenStore (tr : List Event) : List Event :=
  tr.foldl (fun acc e => match e with | Event.openStore => [] | _ => acc ++ [e]) []

/-- Does the launching iteration commit and close the store before the launch
hand-off? -/
def committedBeforeLaunch (tr : List Event) : Bool :=
  let tail := afterLastOpenStore tr
  let pre := tail.takeWhile (fun e => !e.isLaunch)
  pre.contains Event.commitStore && pre.contains Event.closeStore

/-- Modelled from the spec: the owning ancestor Job that produced the
referenced value — the Job itself for a direct reference, the owner of the
pointed object (looked up in the project by parent id) otherwise. -/
def specOwner (proj : Project) (ptr : Pointer) : Option Protocol :=
  match ptr.value with
  | .prot p => some p
  | v => proj.getProtocol v.getObjParentId

/-- runJob (process.py lines 38-53): build the command, then execute it.
world maps a command to its shell-call outcome.  The second component lists
the commands actually handed to the shell; it is empty when command
construction fails, because the exception propagates before any process is
spawned. -/
def runJob (log : Option String) (programname params : String)
    (numberOfMpi numberOfThreads : Int) (runInBackground : Bool)
    (hostConfig : Option HostConfig) (world : String → CallOutcome) :
    Except String Int × List String :=
  match buildRunCommand log programname params numberOfMpi numberOfThreads
      runInBackground hostConfig with
  | .error e => (.error e, [])
  | .ok command =>
    match runCommand command (world command) with
    | .error re => (.error re.message, [command])
    | .ok code => (.ok code, [command])

/-! ## Concrete inputs used by the closed theorems -/

/-- An ancestor protocol in status FAILED. -/
def ancFailed : Protocol := ⟨2, .failed, true, 1, "ancestor"⟩

/-- A direct input reference to the failed ancestor. -/
def ptrToFailed : Pointer := ⟨.prot ancFailed, .prot ancFailed, false⟩

/-- A scheduled protocol with one input reference to a FAILED ancestor, a
non-empty validation problem list and no prerequisites. -/
def c1snap : Snapshot :=
  ⟨⟨1, true, 1, "run1", [("inA", ptrToFailed)], ["some validation problem"], false, [ancFailed]⟩,
   ⟨[]⟩⟩

/-- A scheduled protocol that is READY on its first poll iteration: no inputs,
empty validation, works in streaming, no prerequisites. -/
def c3snapW : Snapshot := ⟨⟨1, true, 1, "run1", [], [], true, []⟩, ⟨[]⟩⟩

/-- The iteration result of the ready first poll on c3snapW. -/
def c3resW : IterResult := resultOf (pollIteration [] 15 c3snapW ⟨[], []⟩)

/-- A scheduled protocol with no inputs and no validation problems, polled with
prerequisite id 99 which matches no protocol of the (empty) project. -/
def c7snap : Snapshot := ⟨⟨3, true, 1, "run3", [], [], true, []⟩, ⟨[]⟩⟩

/-- An ancestor protocol whose run database timestamp never changes. -/
def ancA : Protocol := ⟨2, .finished, true, 10, "ancA"⟩

/-- A prerequisite protocol that stays RUNNING, keeping the loop polling. -/
def prot7 : Protocol := ⟨7, .running, true, 4, "prereq7"⟩

def ptrA : Pointer := ⟨.prot ancA, .prot ancA, false⟩

/-- A snapshot polled twice with unchanged timestamps: input ancestor ancA,
prerequisite 7 still running. -/
def c9snap : Snapshot :=
  ⟨⟨1, true, 3, "run1", [("inA", ptrA)], [], true, [ancA]⟩, ⟨[prot7]⟩⟩

/-- A protocol registered in the project, owner of the object pointed at by
ptr6. -/
def prot5 : Protocol := ⟨5, .finished, true, 1, "p5"⟩

def proj6 : Project := ⟨[prot5]⟩

/-- An extended indirect reference: points at a non-protocol object with
parent id 5 and stores the owning protocol as its object value. -/
def ptr6 : Pointer := ⟨.pset 5 false, .prot prot5, true⟩

/-- A direct reference to prot5. -/
def ptrDirect5 : Pointer := ⟨.prot prot5, .prot prot5, false⟩

/-- A plain indirect reference (no extended sub-path, case C): points at a
non-protocol object whose owning parent, protocol 5, is registered in the
project. -/
def ptrPlainIndirect : Pointer := ⟨.other 5, .other 5, false⟩

/-- The argument vector used by the C8 theorems. -/
def c8argv : List String := ["pw_schedule_run.py", "proj", "db.sqlite", "3"]

/-- The host template of the spec scenario B. -/
def mpirunTpl : HostConfig := ⟨"mpirun -np %(JOB_NODES)s %(COMMAND)s"⟩

/-! ## Helper lemmas: the iteration core never touches the store handle -/

theorem updateProtocol_no_store (m : ProtMeta) (st : UpdState) :
    ∀ e ∈ (updateProtocol m st).snd, e.isCommitOrClose = false := by
  intro e he
  unfold updateProtocol at he
  split at he
  · simp at he
  · split at he
    · split at he
      · simp at he
        rcases he with h | h <;> subst h <;> rfl
      · simp at he
    · simp at he

theorem updateList_no_store (ps : List Protocol) :
    ∀ st, ∀ e ∈ (updateList ps st).snd, e.isCommitOrClose = false := by
  induction ps with
  | nil => intro st e he; simp [updateList] at he
  | cons p rest ih =>
    intro st e he
    simp only [updateList, List.mem_append] at he
    rcases he with h | h
    · exact updateProtocol_no_store _ _ e h
    · exact ih _ e h

theorem checkPrereqLoop_no_store (proj : Project) (ps : List Nat) :
    ∀ st, ∀ e ∈ (checkPrereqLoop proj ps st).snd.fst, e.isCommitOrClose = false := by
  induction ps with
  | nil => intro st e he; simp [checkPrereqLoop] at he
  | cons pid rest ih =>
    intro st e he
    simp only [checkPrereqLoop] at he
    cases hg : proj.getProtocol pid with
    | none => simp only [hg] at he; exact ih _ e he
    | some prot =>
      simp only [hg, List.mem_append] at he
      rcases he with (h | h) | h
      · exact updateProtocol_no_store _ _ e h
      · split at h
        · simp at h
        · simp at h; subst h; rfl
      · exact ih _ e h

theorem checkInputLoop_no_store (proj : Project) (attrs : List (String × Pointer)) :
    ∀ st f st2 evs f2, checkInputLoop proj attrs st f = .ok (st2, evs, f2) →
      ∀ e ∈ evs, e.isCommitOrClose = false := by
  induction attrs with
  | nil =>
    intro st f st2 evs f2 h e he
    simp only [checkInputLoop, Except.ok.injEq, Prod.mk.injEq] at h
    obtain ⟨-, h2, -⟩ := h
    subst h2; simp at he
  | cons hd tl ih =>
    intro st f st2 evs f2 h e he
    obtain ⟨name, attr⟩ := hd
    simp only [checkInputLoop] at h
    cases hg : getProtocolFromPointer proj attr with
    | error err2 => simp only [hg] at h; exact Except.noConfusion h
    | ok p =>
      simp only [hg] at h
      cases hc : checkInputLoop proj tl (updateProtocol p.toMeta st).fst
          (f || p.status == PStatus.aborted || p.status == PStatus.failed) with
      | error err => simp only [hc] at h; exact Except.noConfusion h
      | ok trip =>
        obtain ⟨st3, evs3, f3⟩ := trip
        simp only [hc, Except.ok.injEq, Prod.mk.injEq] at h
        obtain ⟨-, h2, -⟩ := h
        subst h2
        rcases List.mem_append.mp he with hm | hm
        · exact updateProtocol_no_store _ _ e hm
        · exact ih _ _ _ _ _ hc e hm

theorem midPhase_no_store (snap : Snapshot) (st1 : UpdState) (fi : Bool) :
    ∀ e ∈ (midPhase snap st1 fi).snd.fst, e.isCommitOrClose = false := by
  intro e he
  unfold midPhase at he
  split at he
  · simp at he
  · split at he
    · simp only [List.mem_append] at he
      rcases he with h | h
      · exact updateProtocol_no_store _ _ e h
      · simp at h; subst h; rfl
    · split at he
      · simp only [List.mem_append] at he
        rcases he with h | h
        · exact updateProtocol_no_store _ _ e h
        · simp at h; subst h; rfl
      · simp only [List.mem_append] at he
        rcases he with h | h
        · exact updateProtocol_no_store _ _ e h
        · exact updateList_no_store _ _ e h

theorem iterCore_no_store (prereqs : List Nat) (snap : Snapshot) (st0 : UpdState)
    (r : IterResult) (h : iterCore prereqs snap st0 = .ok r) :
    ∀ e ∈ r.events, e.isCommitOrClose = false := by
  intro e he
  unfold iterCore at h
  cases hc : checkInputLoop snap.project snap.protocol.inputAttributes
      { st0 with updatedProtocols := [] } false with
  | error err => simp only [hc] at h; exact Except.noConfusion h
  | ok trip =>
    obtain ⟨st1, inEvs, fi⟩ := trip
    simp only [hc, Except.ok.injEq] at h
    subst h
    simp only [List.mem_append, List.mem_cons, List.not_mem_nil, or_false,
      List.mem_singleton] at he
    rcases he with ((((h1 | h1) | h1) | h1) | h1) | h1
    · subst h1; rfl
    · subst h1; rfl
    · exact checkInputLoop_no_store _ _ _ _ _ _ _ hc e h1
    · exact midPhase_no_store _ _ _ e h1
    · subst h1; rfl
    · exact checkPrereqLoop_no_store _ _ _ e h1

/-! ## Claim theorems -/

/-- C1: the claim says that whenever some input Reference resolves to an
ABORTED or FAILED ancestor, the scheduler reports the Job blocked and stops
without ever launching.  The code does the opposite: the failedInputProtocols
flag only skips the validation and streaming checks, so with no pending
prerequisite the loop breaks and launchProtocol is invoked.  This theorem
evaluates the embedded scheduler at the failing input: one input reference to
a FAILED ancestor, a failing validation, no prerequisites — the run ends in a
launch of protocol 1 even though failedInput was detected. -/
theorem c1_failed_ancestor_still_launches :
    (resultOf (pollIteration [] 15 c1snap ⟨[], []⟩)).failedInput = true
  ∧ (resultOf (pollIteration [] 15 c1snap ⟨[], []⟩)).ready = true
  ∧ runLaunched (schedulerMain [] 15 [c1snap] 1 100) = true
  ∧ Event.launch 1 ∈ runTrace (schedulerMain [] 15 [c1snap] 1 100) := by
  refine ⟨rfl, rfl, rfl, ?_⟩
  decide

/-- C2 counterexample: the claim states buildRunCommand equals the spec
reference definition (prefix rewrite) for every program name.  At the program
name "xmippxmipp" the source replaces every occurrence of "xmipp"
(Python str.replace), while a prefix rewrite only changes the first one, so
the two composed commands differ. -/
theorem c2_counterexample :
    buildRunCommand none "xmippxmipp" "p" 2 1 false (some mpirunTpl)
      ≠ buildRunCommandSpec none "xmippxmipp" "p" 2 1 false (some mpirunTpl) := by
  decide

/-- C2 amended: buildRunCommand equals the reference definition in which the
xmipp rewrite replaces every occurrence of "xmipp" by "xmipp_mpi" (not only
the leading prefix); for count <= 1 the command is the program name, one
space and the argument string; and the spec scenario B composes exactly
"mpirun -np 4 `which xmipp_mpi_reconstruct` -i x". -/
theorem c2_buildRunCommand_amended :
    (∀ log programname params numberOfMpi numberOfThreads runInBackground hostConfig,
       buildRunCommand log programname params numberOfMpi numberOfThreads
           runInBackground hostConfig
         = buildRunCommandAmended log programname params numberOfMpi numberOfThreads
             runInBackground hostConfig)
  ∧ buildRunCommand none "xmipp_reconstruct" "-i x" 4 1 false (some mpirunTpl)
      = .ok "mpirun -np 4 `which xmipp_mpi_reconstruct` -i x"
  ∧ (∀ log programname params (numberOfThreads : Int) hostConfig (m : Int), m ≤ 1 →
       buildRunCommand log programname params m numberOfThreads false hostConfig
         = .ok (programname ++ " " ++ params)) := by
  refine ⟨?_, by decide, ?_⟩
  · intro log programname params numberOfMpi numberOfThreads runInBackground hostConfig
    unfold buildRunCommand buildRunCommandAmended
    split
    · rfl
    · cases hostConfig <;> rfl
  · intro log programname params numberOfThreads hostConfig m hm
    simp [buildRunCommand, bgSuffix, hm]

/-- C2 witness for the amended theorem: the count <= 1 clause applied at a
concrete input. -/
theorem c2_amended_witness :
    (1 : Int) ≤ 1
  ∧ buildRunCommand none "align" "--in a.dat" 1 1 false none = .ok "align --in a.dat" :=
  ⟨by decide, c2_buildRunCommand_amended.2.2 none "align" "--in a.dat" 1 none 1 (by decide)⟩

/-- C3 counterexample: the claim states that on a successful readiness check
the scheduler commits and closes the store handle before invoking launch.
In the run where the job is ready on its first poll iteration, the launching
iteration (everything after its openStore) contains no commitStore and no
closeStore before the launch event. -/
theorem c3_counterexample :
    runLaunched (schedulerMain [] 15 [c3snapW] 1 100) = true
  ∧ committedBeforeLaunch (runTrace (schedulerMain [] 15 [c3snapW] 1 100)) = false := by
  constructor <;> rfl

/-- C3 amended: a ready iteration performs no commit and no close at all — the
loop breaks and launch is invoked with the store handle left open (only the
schedule log is closed); the commit-close pair happens only in not-ready
iterations, where the iteration events end with commit, close, the
still-not-ready log line and the sleep. -/
theorem c3_store_discipline (prereqs : List Nat) (sleepT : Nat) (snap : Snapshot)
    (st0 : UpdState) (r : IterResult)
    (h : pollIteration prereqs sleepT snap st0 = .ok r) :
    (r.ready = true → ∀ e ∈ r.events, e.isCommitOrClose = false)
  ∧ (r.ready = false → ∃ core, (∀ e ∈ core, e.isCommitOrClose = false)
      ∧ r.events = core ++ [Event.commitStore, Event.closeStore,
          Event.logMsg (stillNotReadyMsg sleepT), Event.sleep sleepT]) := by
  unfold pollIteration at h
  cases hc : iterCore prereqs snap st0 with
  | error err => simp only [hc] at h; exact Except.noConfusion h
  | ok r0 =>
    simp only [hc] at h
    split at h
    next hr =>
      injection h with h2
      subst h2
      refine ⟨fun _ => iterCore_no_store prereqs snap st0 _ hc, fun hf => ?_⟩
      rw [hr] at hf
      exact Bool.noConfusion hf
    next hr =>
      injection h with h2
      subst h2
      refine ⟨fun ht => absurd ht hr,
              fun _ => ⟨r0.events, iterCore_no_store prereqs snap st0 _ hc, rfl⟩⟩

/-- C3 witness: the store-discipline theorem applied to the concrete ready
iteration on c3snapW. -/
theorem c3_store_discipline_witness :
    (c3resW.ready = true → ∀ e ∈ c3resW.events, e.isCommitOrClose = false)
  ∧ (c3resW.ready = false → ∃ core, (∀ e ∈ core, e.isCommitOrClose = false)
      ∧ c3resW.events = core ++ [Event.commitStore, Event.closeStore,
          Event.logMsg (stillNotReadyMsg 15), Event.sleep 15]) :=
  c3_store_discipline [] 15 c3snapW ⟨[], []⟩ c3resW rfl

/-- C4: runCommand classifies every shell outcome as the claim states — a
non-zero exit code raises the processReturned failure carrying the code and
the exact command string; an OS-level start failure raises the distinct
executionFailed failure carrying the OS error and the command string; exit
code 0 raises nothing and returns 0.  The message equalities reproduce the
exact exception texts of the source. -/
theorem c4_runCommand_classification (command : String) (c : Int) (e : String)
    (h : c ≠ 0) :
    runCommand command (CallOutcome.exit c) = .error (RunError.processReturned c command)
  ∧ (RunError.processReturned c command).message
      = "Process returned with code " ++ toString c ++ ", command: " ++ command
  ∧ runCommand command (CallOutcome.osError e) = .error (RunError.executionFailed e command)
  ∧ (RunError.executionFailed e command).message
      = "Execution failed " ++ e ++ ", command: " ++ command
  ∧ RunError.processReturned c command ≠ RunError.executionFailed e command
  ∧ runCommand command (CallOutcome.exit 0) = .ok 0 := by
  refine ⟨?_, rfl, rfl, rfl, by simp, rfl⟩
  simp [runCommand, h]

/-- C4 witness: the classification applied at exit code 1 and command "foo". -/
theorem c4_witness :
    (1 : Int) ≠ 0
  ∧ runCommand "foo" (CallOutcome.exit 1) = .error (RunError.processReturned 1 "foo") :=
  ⟨by decide, (c4_runCommand_classification "foo" 1 "boom" (by decide)).1⟩

/-- C5: with requested process count > 1 and no Host Configuration,
buildRunCommand raises the fatal configuration error, and runJob propagates
it during command construction: the list of commands handed to the shell is
empty, so no external process is spawned. -/
theorem c5_missing_hostconfig (log : Option String) (programname params : String)
    (numberOfMpi numberOfThreads : Int) (runInBackground : Bool)
    (world : String → CallOutcome) (h : 1 < numberOfMpi) :
    buildRunCommand log programname params numberOfMpi numberOfThreads
        runInBackground none
      = .error "buildRunCommand: hostConfig is needed to launch MPI processes."
  ∧ runJob log programname params numberOfMpi numberOfThreads runInBackground none world
      = (.error "buildRunCommand: hostConfig is needed to launch MPI processes.", []) := by
  have hn : ¬ numberOfMpi ≤ 1 := not_le.mpr h
  constructor
  · simp [buildRunCommand, hn]
  · simp [runJob, buildRunCommand, hn]

/-- C5 witness: the fatal error at count 4 with no host configuration. -/
theorem c5_witness :
    (1 : Int) < 4
  ∧ buildRunCommand none "xmipp_reconstruct" "-i x" 4 1 false none
      = .error "buildRunCommand: hostConfig is needed to launch MPI processes." :=
  ⟨by decide,
   (c5_missing_hostconfig none "xmipp_reconstruct" "-i x" 4 1 false
     (fun _ => CallOutcome.exit 0) (by decide)).1⟩

/-- C6: the claim says every input Reference — including a plain indirect one
resolved via the owning parent — resolves successfully to exactly the
ancestor Job that produced the referenced value.  Case C of
_getProtocolFromPointer executes self.getProject() on the RunScheduler
instance, which defines no getProject method, so a plain indirect reference
always raises AttributeError: at a reference whose owning protocol 5 is
registered in the project, resolution errors even though the spec-side owner
exists; the direct (A) and extended (B) cases do resolve to the owner. -/
theorem c6_caseC_attribute_error :
    getProtocolFromPointer proj6 ptrPlainIndirect
      = .error "AttributeError: RunScheduler object has no attribute getProject"
  ∧ specOwner proj6 ptrPlainIndirect = some prot5
  ∧ getProtocolFromPointer proj6 ptrDirect5 = .ok prot5
  ∧ specOwner proj6 ptrDirect5 = some prot5
  ∧ getProtocolFromPointer proj6 ptr6 = .ok prot5
  ∧ specOwner proj6 ptr6 = some prot5 :=
  ⟨rfl, rfl, rfl, rfl, rfl, rfl⟩

/-- C7 counterexample: the claim states that a prerequisite id with no
matching Job makes the scheduler raise a fatal error and never treat the
prerequisite as satisfied.  With prerequisite list [99] and an empty project,
the iteration raises nothing, does not wait, and the run launches. -/
theorem c7_counterexample :
    exceptOk (pollIteration [99] 15 c7snap ⟨[], []⟩) = true
  ∧ (resultOf (pollIteration [99] 15 c7snap ⟨[], []⟩)).wait = false
  ∧ runLaunched (schedulerMain [99] 15 [c7snap] 3 42) = true := by
  refine ⟨rfl, rfl, rfl⟩

/-- C7 amended: a prerequisite identifier that resolves to no Job in the
project is silently skipped — the prerequisite loop behaves exactly as if the
identifier were absent (same state, same events, same wait flag), so the
missing prerequisite is treated as satisfied and no error is raised. -/
theorem c7_unknown_prerequisite_skipped (proj : Project) (prereqs : List Nat) :
    ∀ st, checkPrereqLoop proj prereqs st
      = checkPrereqLoop proj
          (prereqs.filter (fun pid => (proj.getProtocol pid).isSome)) st := by
  induction prereqs with
  | nil => intro st; rfl
  | cons pid rest ih =>
    intro st
    cases hg : proj.getProtocol pid with
    | none =>
      have hfc : (pid :: rest).filter (fun q => (proj.getProtocol q).isSome)
          = rest.filter (fun q => (proj.getProtocol q).isSome) := by
        simp [List.filter_cons, hg]
      rw [hfc, ← ih]
      simp only [checkPrereqLoop, hg]
    | some prot =>
      have hfc : (pid :: rest).filter (fun q => (proj.getProtocol q).isSome)
          = pid :: rest.filter (fun q => (proj.getProtocol q).isSome) := by
        simp [List.filter_cons, hg]
      rw [hfc]
      simp only [checkPrereqLoop, hg]
      rw [← ih]

/-- C8 counterexample: the claim states an unhandled exception makes the
process exit with a non-zero status.  The __main__ handler prints the error
and the argument vector but the script then ends normally: the exit status is
0 on the exception path. -/
theorem c8_counterexample :
    (mainWrapper c8argv (Except.error "boom")).printedError = some "boom"
  ∧ (mainWrapper c8argv (Except.error "boom")).exitCode = 0 := ⟨rfl, rfl⟩

/-- C8 amended: an unhandled exception escaping main prints the error and the
original argument vector to standard output, and the process then exits with
status 0 (the exception is swallowed, not converted to a non-zero exit). -/
theorem c8_exception_swallowed (argv : List String) (e : String) :
    mainWrapper argv (Except.error e) = ⟨some e, some argv, 0⟩ := rfl

/-- C9: the claim requires that a refresh happens only when the persisted
modification timestamp is newer than the recorded last-seen one.  The source
never records a last-seen timestamp (lastCheckedDict is never written), so
over two poll iterations with identical timestamps the input ancestor
(protocol 2) is refreshed twice — the second refresh contradicts the claim,
while the per-iteration memoization does hold (one refresh per iteration,
also for the inputProtocolDict pass over the same ancestor). -/
theorem c9_refresh_not_timestamp_gated :
    (runTrace (schedulerMain [7] 15 [c9snap, c9snap] 1 100)).count (Event.refresh 2) = 2
  ∧ runLaunched (schedulerMain [7] 15 [c9snap, c9snap] 1 100) = false := by
  constructor <;> rfl

/-- C10: the composed command never depends on the numberOfThreads argument —
two calls differing only in the thread count produce identical commands, and
the full runJob outcome is likewise identical. -/
theorem c10_threads_noninterference :
    ∀ (log : Option String) (programname params : String) (numberOfMpi t1 t2 : Int)
      (runInBackground : Bool) (hostConfig : Option HostConfig)
      (world : String → CallOutcome),
      buildRunCommand log programname params numberOfMpi t1 runInBackground hostConfig
        = buildRunCommand log programname params numberOfMpi t2 runInBackground hostConfig
      ∧ runJob log programname params numberOfMpi t1 runInBackground hostConfig world
          = runJob log programname params numberOfMpi t2 runInBackground hostConfig world :=
  fun _ _ _ _ _ _ _ _ _ => ⟨rfl, rfl⟩

end PW
